import Mathlib

/-!
# databaseWriter: the product handlers and their persistence accessor

A shallow embedding of `app.go` and `model.go`.

* The `products` table is a list of rows together with the next value of the id
  sequence. The SQL statements of `model.go` are given their relational meaning
  on that table. The price column is the `NUMERIC(10,2)` of `tableCreationQuery`:
  a price written to it is rounded to two decimal places, and a price that does
  not fit is rejected.
* A statement can also fail in the driver (lost connection, ...). The handle
  carries that failure, if any, in `DB.fault`.
* `http.ResponseWriter` is the list of the calls a handler makes on it, in order.
* A request body is the JSON value `json.Decoder` reads from it, or nothing when
  the body does not hold a well-formed JSON value.
* A `float64` is the decimal number its shortest representation writes, which is
  what `lib/pq` sends to the database and `encoding/json` prints; the program
  never computes with prices, it only copies them.
-/

namespace DatabaseWriter

/-! ## strconv.Atoi -/

/-- The two failures of `strconv`: `ErrSyntax` and `ErrRange`. -/
inductive NumError
  | ErrSyntax
  | ErrRange
  deriving DecidableEq, Repr

/-- Largest `uint64`. -/
def maxUint64 : Nat := 2 ^ 64 - 1

/-- The digit loop of `strconv.ParseUint(s, 10, 64)`: a byte that is not a
decimal digit is a syntax error with value 0; an overflow stops the loop at once
with the largest value and a range error. -/
def parseUintLoop : List Char → Nat → Nat × Option NumError
  | [], n => (n, none)
  | c :: cs, n =>
    if c.isDigit then
      if n ≥ maxUint64 / 10 + 1 then (maxUint64, some NumError.ErrRange)
      else
        let n1 := n * 10 + (c.toNat - 48)
        if n1 > maxUint64 then (maxUint64, some NumError.ErrRange)
        else parseUintLoop cs n1
    else (0, some NumError.ErrSyntax)

/-- `strconv.ParseUint(s, 10, 64)`. -/
def ParseUint (s : List Char) : Nat × Option NumError :=
  match s with
  | [] => (0, some NumError.ErrSyntax)
  | _ => parseUintLoop s 0

/-- `strconv.ParseInt(s, 10, 64)`: an optional sign, then `ParseUint`; a value
outside the 64-bit range is clamped and reported as a range error. -/
def ParseInt (s : List Char) : Int × Option NumError :=
  match s with
  | [] => (0, some NumError.ErrSyntax)
  | c :: rest =>
    let neg := c == '-'
    let digits := if c == '+' || c == '-' then rest else s
    match ParseUint digits with
    | (_, some NumError.ErrSyntax) => (0, some NumError.ErrSyntax)
    | (un, _) =>
      if !neg && un ≥ 2 ^ 63 then ((2 : Int) ^ 63 - 1, some NumError.ErrRange)
      else if neg && un > 2 ^ 63 then (-(2 : Int) ^ 63, some NumError.ErrRange)
      else (if neg then -(un : Int) else (un : Int), none)

/-- `strconv.Atoi` on a 64-bit platform: the value and the error, if any. Its
fast path for short strings computes what `ParseInt(s, 10, 0)` computes. -/
def Atoi (s : String) : Int × Option NumError :=
  ParseInt s.toList

/-- The route pattern `{id:[0-9]+}` of `initialiseRoutes`. -/
def idPattern (s : String) : Bool :=
  !s.toList.isEmpty && s.toList.all Char.isDigit

/-! ## model.go -/

/-- Go `float64`, each finite value standing for the decimal number that
`strconv.FormatFloat(v, 'f', -1, 64)` writes for it. -/
abbrev Float64 := ℚ

/-- The struct `product` of `model.go`. -/
structure product where
  ID : Int
  Name : String
  Price : Float64
  deriving DecidableEq, Repr

/-- The zero value `var product product`. -/
def product.zero : product := { ID := 0, Name := "", Price := 0 }

/-- A row of the table `products`; `price` holds a value of the column type. -/
structure Row where
  id : Int
  name : String
  price : Float64
  deriving DecidableEq, Repr

/-- The database behind `a.DB`: the rows of `products`, the next value of
`products_id_seq`, and the failure the driver reports for a statement, if any. -/
structure DB where
  rows : List Row
  nextId : Int
  fault : Option String
  deriving DecidableEq, Repr

/-- Errors of `database/sql` as the handlers tell them apart. -/
inductive SqlError
  | ErrNoRows
  | driver (msg : String)
  deriving DecidableEq, Repr

/-- The method `err.Error()`. -/
def SqlError.Error : SqlError → String
  | SqlError.ErrNoRows => "sql: no rows in result set"
  | SqlError.driver msg => msg

/-- Rounding to the nearest integer, ties away from zero: the rounding of the
SQL type `numeric`. -/
def roundHalfAway (x : ℚ) : ℤ :=
  if 0 ≤ x then ⌊x + 1 / 2⌋ else -⌊-x + 1 / 2⌋

/-- A price rounded to two decimal places. -/
def round2 (x : Float64) : Float64 :=
  (roundHalfAway (x * 100) : ℚ) / 100

/-- The cast of a price to the column type `price NUMERIC(10,2)` declared by
`tableCreationQuery`: the value is rounded to two decimal places, and the cast
fails when the rounded value needs more than ten digits. -/
def numeric_10_2 (x : Float64) : Option Float64 :=
  if (roundHalfAway (x * 100)).natAbs < 10 ^ 10 then some (round2 x) else none

/-- The statement `UPDATE products SET name=$1, price=$2 WHERE id=$3` on the rows,
given the price as the column stores it. -/
def updateRows (rows : List Row) (name : String) (stored : Float64) (id : Int) : List Row :=
  rows.map fun r => if r.id = id then { r with name := name, price := stored } else r

/-- The accessor `(p *product) getProduct(db)`:
`db.QueryRow("SELECT name, price FROM products WHERE id=$1", p.ID).Scan(&p.Name, &p.Price)`.
The first matching row is scanned; without one `Scan` returns `sql.ErrNoRows`. -/
def product.getProduct (p : product) (db : DB) : Option SqlError × product :=
  match db.fault with
  | some msg => (some (SqlError.driver msg), p)
  | none =>
    match db.rows.find? (fun r => r.id = p.ID) with
    | none => (some SqlError.ErrNoRows, p)
    | some r => (none, { p with Name := r.name, Price := r.price })

/-- The accessor `(p *product) updateProduct(db)`: the `UPDATE` statement, whose
result (the number of rows affected) is dropped; only the error is returned.
The price is cast to the column type when the statement is bound; a price the
column rejects fails the statement. -/
def product.updateProduct (p : product) (db : DB) : Option SqlError × DB :=
  match db.fault with
  | some msg => (some (SqlError.driver msg), db)
  | none =>
    match numeric_10_2 p.Price with
    | none => (some (SqlError.driver "pq: numeric field overflow"), db)
    | some stored => (none, { db with rows := updateRows db.rows p.Name stored p.ID })

/-- The accessor `(p *product) createProduct(db)`:
`db.QueryRow("INSERT INTO products (name, price) VALUES ($1, $2) RETURNING id", p.Name, p.Price).Scan(&p.ID)`.
The id comes from the sequence, never from `p.ID`; the sequence moves on also
when the primary key rejects the row. The price is cast to the column type when
the statement is bound; a price the column rejects fails the statement. The
struct keeps the price it had: only `p.ID` is scanned. -/
def product.createProduct (p : product) (db : DB) : Option SqlError × product × DB :=
  match db.fault with
  | some msg => (some (SqlError.driver msg), p, db)
  | none =>
    match numeric_10_2 p.Price with
    | none => (some (SqlError.driver "pq: numeric field overflow"), p, db)
    | some stored =>
      if db.rows.any (fun r => r.id = db.nextId) then
        (some (SqlError.driver "pq: duplicate key value violates unique constraint \"products_pkey\""),
          p, { db with nextId := db.nextId + 1 })
      else
        (none, { p with ID := db.nextId },
          { db with rows := db.rows ++ [{ id := db.nextId, name := p.Name, price := stored }],
                    nextId := db.nextId + 1 })

/-- The accessor `(p *product) deleteProduct(db)`: `errors.New("Not implemented")`. -/
def product.deleteProduct (_p : product) (_db : DB) : Option SqlError :=
  some (SqlError.driver "Not implemented")

/-! ## encoding/json, as far as `product` needs it -/

/-- A JSON value. A number is its literal together with what
`strconv.ParseFloat(lit, 64)` makes of it (nothing when it overflows). -/
inductive JValue
  | null
  | bool (b : Bool)
  | number (lit : String) (asFloat : Option Float64)
  | string (s : String)
  | array (elems : List JValue)
  | object (members : List (String × JValue))

/-- The fields of `product`, by their tags `json:"ID"`, `json:"Name"`, `json:"Price"`. -/
inductive Field
  | ID
  | Name
  | Price
  deriving DecidableEq, Repr

/-- Field lookup of the decoder: the key matches a tag exactly or under case
folding. None of the three tags holds a letter with a non-ASCII fold, so folding
is ASCII lower-casing here. -/
def fieldOf (key : String) : Option Field :=
  let k := key.toList.map Char.toLower
  if k = ['i', 'd'] then some Field.ID
  else if k = ['n', 'a', 'm', 'e'] then some Field.Name
  else if k = ['p', 'r', 'i', 'c', 'e'] then some Field.Price
  else none

/-- Storing one member value into a field. The flag is an `UnmarshalTypeError`:
the field is then left as it was and decoding goes on. `null` changes nothing. -/
def product.setField (p : product) (f : Field) (v : JValue) : product × Bool :=
  match f, v with
  | _, JValue.null => (p, false)
  | Field.ID, JValue.number lit _ =>
    match ParseInt lit.toList with
    | (n, none) => ({ p with ID := n }, false)
    | _ => (p, true)
  | Field.Name, JValue.string s => ({ p with Name := s }, false)
  | Field.Price, JValue.number _ (some x) => ({ p with Price := x }, false)
  | _, _ => (p, true)

/-- Decoding the members of an object in order; a later member overwrites an
earlier one, unknown keys are skipped. -/
def decodeObject : List (String × JValue) → product → product × Bool
  | [], p => (p, false)
  | (k, v) :: ms, p =>
    match fieldOf k with
    | none => decodeObject ms p
    | some f =>
      let r1 := p.setField f v
      let r2 := decodeObject ms r1.1
      (r2.1, r1.2 || r2.2)

/-- The call `json.NewDecoder(r.Body).Decode(&product)`: the struct after the
call and whether an error was returned. A body without a well-formed JSON value
is an error that leaves the struct alone; so is a value that is neither an
object nor `null`. -/
def Decode (body : Option JValue) (p : product) : product × Bool :=
  match body with
  | none => (p, true)
  | some JValue.null => (p, false)
  | some (JValue.object ms) => decodeObject ms p
  | some _ => (p, true)

/-! ## http.ResponseWriter -/

/-- What a handler hands to `w.Write`: the result of one `json.Marshal`. -/
inductive Payload
  | error (msg : String)
  | entity (p : product)
  | strings (xs : List String)
  deriving DecidableEq, Repr

/-- A call on the `http.ResponseWriter`. -/
inductive Call
  | HeaderSet (key value : String)
  | WriteHeader (statusCode : Nat)
  | Write (b : Payload)
  deriving DecidableEq, Repr

/-- The three statements every answer of `app.go` is made of. -/
def respond (statusCode : Nat) (b : Payload) : List Call :=
  [Call.HeaderSet "Content-Type" "application-json", Call.WriteHeader statusCode, Call.Write b]

/-- The status the client receives: that of the first `WriteHeader`; a `Write`
before any `WriteHeader`, or no call at all, gives 200. -/
def Code : List Call → Nat
  | [] => 200
  | Call.WriteHeader c :: _ => c
  | Call.Write _ :: _ => 200
  | Call.HeaderSet _ _ :: rest => Code rest

/-- The body the client receives: every payload written, in order. -/
def Body : List Call → List Payload
  | [] => []
  | Call.Write b :: rest => b :: Body rest
  | _ :: rest => Body rest

/-- Number of `WriteHeader` calls. -/
def statusWrites (calls : List Call) : Nat :=
  (calls.filter fun c => match c with | Call.WriteHeader _ => true | _ => false).length

/-- Number of `Write` calls. -/
def bodyWrites (calls : List Call) : Nat :=
  (Body calls).length

/-- The bytes of a payload where neither string escaping nor float formatting
comes into play: the empty slice. -/
def Payload.bytes? : Payload → Option String
  | Payload.strings [] => some "[]"
  | _ => none

/-! ## app.go -/

/-- The parts of `*http.Request` the handlers read: `mux.Vars(r)["id"]` and the body. -/
structure Request where
  id : String
  Body : Option JValue

/-- The handler `(a *App) getProduct(w, r)`. -/
def App.getProduct (db : DB) (r : Request) : List Call × DB :=
  match Atoi r.id with
  | (_, some _) => (respond 404 (Payload.error "Invalid product ID"), db)
  | (id, none) =>
    match ({ ID := id, Name := "", Price := 0 } : product).getProduct db with
    | (some SqlError.ErrNoRows, _) => (respond 404 (Payload.error "Product not found"), db)
    | (some err, _) => (respond 500 (Payload.error err.Error), db)
    | (none, p) => (respond 200 (Payload.entity p), db)

/-- The handler `(a *App) getProducts(w, r)`. -/
def App.getProducts (db : DB) (_r : Request) : List Call × DB :=
  (respond 200 (Payload.strings []), db)

/-- The handler `(a *App) createProduct(w, r)`. No branch returns early. -/
def App.createProduct (db : DB) (r : Request) : List Call × DB :=
  let d := Decode r.Body product.zero
  let w1 := if d.2 then respond 400 (Payload.error "Invalid Payload") else []
  let c := d.1.createProduct db
  let w2 := match c.1 with
    | some err => w1 ++ respond 500 (Payload.error err.Error)
    | none => w1
  (w2 ++ respond 201 (Payload.entity c.2.1), c.2.2)

/-- The handler `(a *App) updateProduct(w, r)`. No branch returns early. -/
def App.updateProduct (db : DB) (r : Request) : List Call × DB :=
  let a := Atoi r.id
  let w1 := match a.2 with
    | some _ => respond 400 (Payload.error "Invalid product ID")
    | none => []
  let d := Decode r.Body { product.zero with ID := a.1 }
  let w2 := if d.2 then w1 ++ respond 400 (Payload.error "Invalid Payload") else w1
  let u := d.1.updateProduct db
  let w3 := match u.1 with
    | some err => w2 ++ respond 500 (Payload.error err.Error)
    | none => w2
  (w3 ++ respond 200 (Payload.entity d.1), u.2)

/-- The handler `(a *App) deleteProduct(w, r)`: an empty body. -/
def App.deleteProduct (db : DB) (_r : Request) : List Call × DB :=
  ([], db)

/-! ## Predicates used to state the properties -/

/-- A body that carries an ID member of its own: an object with a key the decoder
takes for the field `ID`. -/
def carriesID : Option JValue → Bool
  | some (JValue.object ms) => ms.any fun m => fieldOf m.1 = some Field.ID
  | _ => false

/-! ## Lemmas on the table -/

theorem find_absent (rows : List Row) (id : Int) (h : ∀ row ∈ rows, row.id ≠ id) :
    rows.find? (fun r => r.id = id) = none := by
  rw [List.find?_eq_none]
  intro row hrow
  simpa using h row hrow

theorem find_updateRows (rows : List Row) (name : String) (price : Float64) (id : Int)
    (h : ∃ row ∈ rows, row.id = id) :
    (updateRows rows name price id).find? (fun r => r.id = id)
      = some { id := id, name := name, price := price } := by
  induction rows with
  | nil => simp at h
  | cons r rs ih =>
    by_cases hr : r.id = id
    · simp [updateRows, hr, List.find?]
    · have h2 : ∃ row ∈ rs, row.id = id := by
        obtain ⟨row, hmem, hrow⟩ := h
        rcases List.mem_cons.mp hmem with heq | hin
        · exact absurd (heq ▸ hrow) hr
        · exact ⟨row, hin, hrow⟩
      have := ih h2
      simp only [updateRows] at this
      simp [updateRows, hr, List.find?, this]

theorem find_appended (rows : List Row) (row : Row)
    (h : rows.any (fun r => r.id = row.id) = false) :
    (rows ++ [row]).find? (fun r => r.id = row.id) = some row := by
  have hnone : rows.find? (fun r => r.id = row.id) = none := by
    rw [List.find?_eq_none]
    intro x hx
    have := List.any_eq_false.mp h x hx
    simpa using this
  simp [List.find?_append, hnone, List.find?]

/-! ## Lemmas on the price column -/

theorem roundHalfAway_intCast (c : ℤ) : roundHalfAway (c : ℚ) = c := by
  have h0 : ⌊(1 / 2 : ℚ)⌋ = 0 := by
    rw [Int.floor_eq_iff]
    norm_num
  unfold roundHalfAway
  split
  · rw [Int.floor_int_add, h0, add_zero]
  · have hneg : (-(c : ℚ)) = ((-c : ℤ) : ℚ) := by
      push_cast
      rfl
    rw [hneg, Int.floor_int_add, h0, add_zero, neg_neg]

theorem round2_exact (x : Float64) (c : ℤ) (h : x = c / 100) : round2 x = x := by
  have hx : x * 100 = (c : ℚ) := by
    rw [h]
    field_simp
  unfold round2
  rw [hx, roundHalfAway_intCast, h]

theorem numeric_10_2_some (x y : Float64) (h : numeric_10_2 x = some y) : y = round2 x := by
  unfold numeric_10_2 at h
  split at h
  · exact (Option.some.inj h).symm
  · exact absurd h (by simp)

theorem numeric_10_2_ne_none (x : Float64) (h : numeric_10_2 x ≠ none) :
    numeric_10_2 x = some (round2 x) := by
  cases hx : numeric_10_2 x with
  | none => exact absurd hx h
  | some y => rw [numeric_10_2_some x y hx]

/-! ## Lemmas on the decoder -/

theorem setField_ID (p : product) (f : Field) (v : JValue) (hf : f ≠ Field.ID) :
    (p.setField f v).1.ID = p.ID := by
  cases f with
  | ID => exact absurd rfl hf
  | Name => cases v <;> simp [product.setField]
  | Price =>
    cases v with
    | number lit x => cases x <;> simp [product.setField]
    | _ => simp [product.setField]

theorem decodeObject_ID (ms : List (String × JValue)) (p : product)
    (h : ms.any (fun m => fieldOf m.1 = some Field.ID) = false) :
    (decodeObject ms p).1.ID = p.ID := by
  induction ms generalizing p with
  | nil => simp [decodeObject]
  | cons m ms ih =>
    obtain ⟨k, v⟩ := m
    simp only [List.any_cons, Bool.or_eq_false_iff, decide_eq_false_iff_not] at h
    obtain ⟨hk, hrest⟩ := h
    unfold decodeObject
    cases hf : fieldOf k with
    | none => simpa using ih p hrest
    | some f =>
      have hne : f ≠ Field.ID := by
        intro heq
        exact hk (by rw [hf, heq])
      simp only
      rw [ih _ hrest, setField_ID p f v hne]

theorem Decode_ID (body : Option JValue) (p : product) (h : carriesID body = false) :
    (Decode body p).1.ID = p.ID := by
  cases body with
  | none => rfl
  | some v =>
    cases v with
    | object ms => exact decodeObject_ID ms p h
    | _ => rfl

/-! ## Reading and listing -/

/-- C1. A get whose path id parses to `id`, on a table without a row of that id
and a driver that does not fail, answers 404 with the error body
"Product not found" and leaves the database as it was. -/
theorem getProduct_absent_row (db : DB) (r : Request) (id : Int)
    (hid : Atoi r.id = (id, none)) (hfault : db.fault = none)
    (habsent : ∀ row ∈ db.rows, row.id ≠ id) :
    App.getProduct db r = (respond 404 (Payload.error "Product not found"), db)
      ∧ Code (App.getProduct db r).1 = 404
      ∧ Body (App.getProduct db r).1 = [Payload.error "Product not found"]
      ∧ (App.getProduct db r).2 = db := by
  have h : App.getProduct db r = (respond 404 (Payload.error "Product not found"), db) := by
    simp [App.getProduct, hid, product.getProduct, hfault, find_absent db.rows id habsent]
  rw [h]
  exact ⟨rfl, rfl, rfl, rfl⟩

theorem getProduct_absent_row_witness :
    App.getProduct { rows := [{ id := 1, name := "Product 0", price := 10 }], nextId := 2, fault := none }
        { id := "11", Body := none }
      = (respond 404 (Payload.error "Product not found"),
          { rows := [{ id := 1, name := "Product 0", price := 10 }], nextId := 2, fault := none }) :=
  (getProduct_absent_row
    { rows := [{ id := 1, name := "Product 0", price := 10 }], nextId := 2, fault := none }
    { id := "11", Body := none } 11 (by decide) rfl (by decide)).1

/-- C5. The list handler answers every request, on every database, with status
200 and the one payload `[]`; its answer does not depend on the database, which
it hands back unchanged. -/
theorem getProducts_empty_array (db : DB) (r : Request) :
    App.getProducts db r = (respond 200 (Payload.strings []), db)
      ∧ Code (App.getProducts db r).1 = 200
      ∧ (Body (App.getProducts db r).1).map Payload.bytes? = [some "[]"]
      ∧ (∀ db2 : DB, (App.getProducts db2 r).1 = (App.getProducts db r).1)
      ∧ (App.getProducts db r).2 = db :=
  ⟨rfl, rfl, rfl, fun _ => rfl, rfl⟩

/-! ## Creating -/

theorem createProduct_accessor_ok (p : product) (db : DB) (hins : (p.createProduct db).1 = none) :
    db.fault = none ∧ db.rows.any (fun row => row.id = db.nextId) = false
      ∧ p.createProduct db
          = (none, { p with ID := db.nextId },
              { db with rows := db.rows ++ [{ id := db.nextId, name := p.Name, price := round2 p.Price }],
                        nextId := db.nextId + 1 }) := by
  have hfault : db.fault = none := by
    cases hf : db.fault with
    | none => rfl
    | some msg => simp [product.createProduct, hf] at hins
  have hcast : numeric_10_2 p.Price = some (round2 p.Price) := by
    apply numeric_10_2_ne_none
    intro hn
    simp [product.createProduct, hfault, hn] at hins
  have hfresh : db.rows.any (fun row => row.id = db.nextId) = false := by
    cases ha : db.rows.any (fun row => row.id = db.nextId) with
    | false => rfl
    | true =>
      simp only [product.createProduct, hfault, hcast] at hins
      rw [if_pos ha] at hins
      simp at hins
  refine ⟨hfault, hfresh, ?_⟩
  simp only [product.createProduct, hfault, hcast]
  rw [if_neg (by simp [hfresh])]

theorem createProduct_handler_ok (db : DB) (r : Request) (p : product)
    (hdec : Decode r.Body product.zero = (p, false))
    (hins : (p.createProduct db).1 = none) :
    App.createProduct db r
      = (respond 201 (Payload.entity { ID := db.nextId, Name := p.Name, Price := p.Price }),
          { db with rows := db.rows ++ [{ id := db.nextId, name := p.Name, price := round2 p.Price }],
                    nextId := db.nextId + 1 }) := by
  obtain ⟨_, _, hc⟩ := createProduct_accessor_ok p db hins
  simp [App.createProduct, hdec, hc]

/-- C2. When the body decodes into `p` and the insert succeeds, the create
handler answers 201 with the one entity whose Name and Price are those of `p`
and whose ID is the value the sequence hands out, whatever ID the body carried;
on an empty table with the sequence at 1 that ID is 1. -/
theorem createProduct_created (db : DB) (r : Request) (p : product)
    (hdec : Decode r.Body product.zero = (p, false))
    (hins : (p.createProduct db).1 = none) :
    (App.createProduct db r).1
        = respond 201 (Payload.entity { ID := db.nextId, Name := p.Name, Price := p.Price })
      ∧ Code (App.createProduct db r).1 = 201
      ∧ Body (App.createProduct db r).1
          = [Payload.entity { ID := db.nextId, Name := p.Name, Price := p.Price }]
      ∧ (App.createProduct db r).2
          = { db with rows := db.rows ++ [{ id := db.nextId, name := p.Name, price := round2 p.Price }],
                      nextId := db.nextId + 1 }
      ∧ (db.rows = [] → db.nextId = 1 →
          Body (App.createProduct db r).1
            = [Payload.entity { ID := 1, Name := p.Name, Price := p.Price }]) := by
  rw [createProduct_handler_ok db r p hdec hins]
  refine ⟨rfl, rfl, rfl, rfl, ?_⟩
  intro _ hone
  rw [hone]
  rfl

theorem createProduct_created_witness :
    (App.createProduct { rows := [], nextId := 1, fault := none }
        { id := "",
          Body := some (JValue.object [("ID", JValue.number "99" (some 99)),
                                       ("name", JValue.string "test product"),
                                       ("price", JValue.number "11.22" (some 11.22))]) }).1
      = respond 201 (Payload.entity { ID := 1, Name := "test product", Price := 11.22 }) :=
  (createProduct_created { rows := [], nextId := 1, fault := none }
    { id := "",
      Body := some (JValue.object [("ID", JValue.number "99" (some 99)),
                                   ("name", JValue.string "test product"),
                                   ("price", JValue.number "11.22" (some 11.22))]) }
    { ID := 99, Name := "test product", Price := 11.22 } rfl (by decide!)).1

/-- C4, as stated, fails: on the empty table a POST with price 11.225 is answered
201 with Price 11.225, and the GET of the returned id 1 is answered 200 with
Price 11.23, the value the column stored. -/
theorem create_then_get_price_differs :
    (App.createProduct { rows := [], nextId := 1, fault := none }
        { id := "",
          Body := some (JValue.object [("name", JValue.string "test product"),
                                       ("price", JValue.number "11.225" (some 11.225))]) }).1
        = respond 201 (Payload.entity { ID := 1, Name := "test product", Price := 11.225 })
      ∧ (App.getProduct
          (App.createProduct { rows := [], nextId := 1, fault := none }
            { id := "",
              Body := some (JValue.object [("name", JValue.string "test product"),
                                           ("price", JValue.number "11.225" (some 11.225))]) }).2
          { id := "1", Body := none }).1
        = respond 200 (Payload.entity { ID := 1, Name := "test product", Price := 11.23 })
      ∧ (11.225 : Float64) ≠ 11.23 := by
  decide!

/-- C4, amended. If a create answers 201 with the entity `e`, then `e` has the
Name and Price decoded from the payload, and a get whose path id parses to
`e.ID`, on the database the create left behind, answers 200 with the ID and Name
of `e` and with the Price of `e` rounded to two decimal places; that answer is
`e` itself when the Price of `e` has at most two decimal places. -/
theorem create_then_get (db : DB) (r1 r2 : Request) (e : product)
    (hcreate : (App.createProduct db r1).1 = respond 201 (Payload.entity e))
    (hid : Atoi r2.id = (e.ID, none)) :
    e.Name = (Decode r1.Body product.zero).1.Name
      ∧ e.Price = (Decode r1.Body product.zero).1.Price
      ∧ App.getProduct (App.createProduct db r1).2 r2
          = (respond 200 (Payload.entity { ID := e.ID, Name := e.Name, Price := round2 e.Price }),
              (App.createProduct db r1).2)
      ∧ ((∃ c : ℤ, e.Price = c / 100) →
          App.getProduct (App.createProduct db r1).2 r2
            = (respond 200 (Payload.entity e), (App.createProduct db r1).2)) := by
  have hd : (Decode r1.Body product.zero).2 = false := by
    cases hd : (Decode r1.Body product.zero).2 with
    | false => rfl
    | true =>
      simp only [App.createProduct, hd] at hcreate
      cases hc : ((Decode r1.Body product.zero).1.createProduct db).1 <;>
        simp [hc, respond] at hcreate
  have hins : ((Decode r1.Body product.zero).1.createProduct db).1 = none := by
    cases hc : ((Decode r1.Body product.zero).1.createProduct db).1 with
    | none => rfl
    | some err => simp [App.createProduct, hd, hc, respond] at hcreate
  have hdec : Decode r1.Body product.zero = ((Decode r1.Body product.zero).1, false) := by
    rw [← hd]
  have hc := createProduct_handler_ok db r1 _ hdec hins
  obtain ⟨hfault, hfresh, _⟩ := createProduct_accessor_ok _ db hins
  rw [hc] at hcreate
  have he : e = { ID := db.nextId, Name := (Decode r1.Body product.zero).1.Name,
                  Price := (Decode r1.Body product.zero).1.Price } := by
    simp [respond] at hcreate
    exact hcreate.symm
  have hfind := find_appended db.rows
    { id := db.nextId, name := (Decode r1.Body product.zero).1.Name,
      price := round2 (Decode r1.Body product.zero).1.Price } hfresh
  have hget : App.getProduct (App.createProduct db r1).2 r2
      = (respond 200 (Payload.entity { ID := e.ID, Name := e.Name, Price := round2 e.Price }),
          (App.createProduct db r1).2) := by
    rw [hc]
    rw [he] at hid
    simp only at hid hfind
    simp [App.getProduct, hid, product.getProduct, hfault, hfind, he]
  refine ⟨by rw [he], by rw [he], hget, ?_⟩
  rintro ⟨c, hcents⟩
  rw [hget, round2_exact e.Price c hcents]

theorem create_then_get_witness :
    App.getProduct
        (App.createProduct { rows := [], nextId := 1, fault := none }
          { id := "",
            Body := some (JValue.object [("name", JValue.string "test product"),
                                         ("price", JValue.number "11.22" (some 11.22))]) }).2
        { id := "1", Body := none }
      = (respond 200 (Payload.entity { ID := 1, Name := "test product", Price := 11.22 }),
          (App.createProduct { rows := [], nextId := 1, fault := none }
            { id := "",
              Body := some (JValue.object [("name", JValue.string "test product"),
                                           ("price", JValue.number "11.22" (some 11.22))]) }).2) :=
  (create_then_get { rows := [], nextId := 1, fault := none }
    { id := "",
      Body := some (JValue.object [("name", JValue.string "test product"),
                                   ("price", JValue.number "11.22" (some 11.22))]) }
    { id := "1", Body := none }
    { ID := 1, Name := "test product", Price := 11.22 } (by decide!) (by decide)).2.2.2
    ⟨1122, by norm_num⟩

/-! ## Updating -/

theorem updateProduct_accessor_ok (p : product) (db : DB) (hupd : (p.updateProduct db).1 = none) :
    db.fault = none
      ∧ p.updateProduct db
          = (none, { db with rows := updateRows db.rows p.Name (round2 p.Price) p.ID }) := by
  have hfault : db.fault = none := by
    cases hf : db.fault with
    | none => rfl
    | some msg => simp [product.updateProduct, hf] at hupd
  have hcast : numeric_10_2 p.Price = some (round2 p.Price) := by
    apply numeric_10_2_ne_none
    intro hn
    simp [product.updateProduct, hfault, hn] at hupd
  refine ⟨hfault, ?_⟩
  simp only [product.updateProduct, hfault, hcast]

/-- C3, as stated, fails: with row 1 in the table, a PUT on id 1 with price
0.001 is answered 200 with Price 0.001 and the following GET of id 1 is answered
200 with Price 0, the value the column stored; a PUT with price 100000000 is
rejected by the column and answered 500. -/
theorem update_then_get_price_differs :
    (App.updateProduct { rows := [{ id := 1, name := "Product 0", price := 10 }], nextId := 2, fault := none }
        { id := "1",
          Body := some (JValue.object [("Name", JValue.string "Updated Product"),
                                       ("price", JValue.number "0.001" (some 0.001))]) }).1
        = respond 200 (Payload.entity { ID := 1, Name := "Updated Product", Price := 0.001 })
      ∧ (App.getProduct
          (App.updateProduct { rows := [{ id := 1, name := "Product 0", price := 10 }], nextId := 2, fault := none }
            { id := "1",
              Body := some (JValue.object [("Name", JValue.string "Updated Product"),
                                           ("price", JValue.number "0.001" (some 0.001))]) }).2
          { id := "1", Body := none }).1
        = respond 200 (Payload.entity { ID := 1, Name := "Updated Product", Price := 0 })
      ∧ (0.001 : Float64) ≠ 0
      ∧ Code (App.updateProduct { rows := [{ id := 1, name := "Product 0", price := 10 }], nextId := 2, fault := none }
          { id := "1",
            Body := some (JValue.object [("Name", JValue.string "Updated Product"),
                                         ("price", JValue.number "100000000" (some 100000000))]) }).1
        = 500 := by
  decide!

/-- C3, amended. For a path id that parses to `i`, a table holding a row with
id `i`, a body without an ID member that decodes into `p`, and an update
statement that succeeds: the update handler answers 200 with the entity of ID
`i` and the Name and Price of `p`, and a get of `i` on the resulting database
answers 200 with ID `i`, the Name of `p` and the Price of `p` rounded to two
decimal places; that is the Price of `p` itself when it has at most two decimal
places. -/
theorem updateProduct_existing_row (db : DB) (r r2 : Request) (i : Int) (p : product)
    (hid : Atoi r.id = (i, none))
    (hrow : ∃ row ∈ db.rows, row.id = i)
    (hshape : carriesID r.Body = false)
    (hdec : Decode r.Body { product.zero with ID := i } = (p, false))
    (hupd : (p.updateProduct db).1 = none)
    (hid2 : Atoi r2.id = (i, none)) :
    p.ID = i
      ∧ (App.updateProduct db r).1
          = respond 200 (Payload.entity { ID := i, Name := p.Name, Price := p.Price })
      ∧ Code (App.updateProduct db r).1 = 200
      ∧ App.getProduct (App.updateProduct db r).2 r2
          = (respond 200 (Payload.entity { ID := i, Name := p.Name, Price := round2 p.Price }),
              (App.updateProduct db r).2)
      ∧ ((∃ c : ℤ, p.Price = c / 100) →
          App.getProduct (App.updateProduct db r).2 r2
            = (respond 200 (Payload.entity { ID := i, Name := p.Name, Price := p.Price }),
                (App.updateProduct db r).2)) := by
  have hpid : p.ID = i := by
    have := Decode_ID r.Body { product.zero with ID := i } hshape
    rw [hdec] at this
    exact this
  have hp : p = { ID := i, Name := p.Name, Price := p.Price } := by
    cases p
    simp only at hpid
    simp [hpid]
  obtain ⟨hfault, hu⟩ := updateProduct_accessor_ok p db hupd
  have h : App.updateProduct db r
      = (respond 200 (Payload.entity { ID := i, Name := p.Name, Price := p.Price }),
          { db with rows := updateRows db.rows p.Name (round2 p.Price) i }) := by
    simp only [App.updateProduct, hid, hdec, hu, hpid]
    rw [← hp]
    simp
  have hfind := find_updateRows db.rows p.Name (round2 p.Price) i hrow
  have hget : App.getProduct (App.updateProduct db r).2 r2
      = (respond 200 (Payload.entity { ID := i, Name := p.Name, Price := round2 p.Price }),
          (App.updateProduct db r).2) := by
    rw [h]
    simp [App.getProduct, hid2, product.getProduct, hfault, hfind]
  refine ⟨hpid, by rw [h], by rw [h]; rfl, hget, ?_⟩
  rintro ⟨c, hcents⟩
  rw [hget, round2_exact p.Price c hcents]

theorem updateProduct_existing_row_witness :
    App.getProduct
        (App.updateProduct { rows := [{ id := 1, name := "Product 0", price := 10 }], nextId := 2, fault := none }
          { id := "1",
            Body := some (JValue.object [("Name", JValue.string "Updated Product"),
                                         ("price", JValue.number "11.22" (some 11.22))]) }).2
        { id := "1", Body := none }
      = (respond 200 (Payload.entity { ID := 1, Name := "Updated Product", Price := 11.22 }),
          (App.updateProduct { rows := [{ id := 1, name := "Product 0", price := 10 }], nextId := 2, fault := none }
            { id := "1",
              Body := some (JValue.object [("Name", JValue.string "Updated Product"),
                                           ("price", JValue.number "11.22" (some 11.22))]) }).2) :=
  (updateProduct_existing_row
    { rows := [{ id := 1, name := "Product 0", price := 10 }], nextId := 2, fault := none }
    { id := "1",
      Body := some (JValue.object [("Name", JValue.string "Updated Product"),
                                   ("price", JValue.number "11.22" (some 11.22))]) }
    { id := "1", Body := none } 1
    { ID := 1, Name := "Updated Product", Price := 11.22 }
    (by decide) ⟨_, List.mem_singleton.mpr rfl, rfl⟩ (by decide) rfl (by decide!) (by decide)).2.2.2.2
    ⟨1122, by norm_num⟩

/-- C6. On the empty table a PUT for id 11 finds no row to change, and the
update handler still answers 200 with the entity echoed from the request. -/
theorem updateProduct_absent_row_200 :
    App.updateProduct { rows := [], nextId := 1, fault := none }
        { id := "11",
          Body := some (JValue.object [("Name", JValue.string "Updated Product"),
                                       ("price", JValue.number "11.22" (some 11.22))]) }
      = (respond 200 (Payload.entity { ID := 11, Name := "Updated Product", Price := 11.22 }),
          { rows := [], nextId := 1, fault := none })
    ∧ Code (App.updateProduct { rows := [], nextId := 1, fault := none }
        { id := "11",
          Body := some (JValue.object [("Name", JValue.string "Updated Product"),
                                       ("price", JValue.number "11.22" (some 11.22))]) }).1 = 200 := by
  decide!

/-- C9. With rows 1 and 2 in the table, a PUT on path id 1 whose body carries
`"ID": 2` hands the accessor an entity of ID 2: the answer echoes ID 2, row 2 is
rewritten and row 1 keeps its old name and price. -/
theorem updateProduct_body_id_overrides_path :
    App.updateProduct
        { rows := [{ id := 1, name := "Product 0", price := 10 },
                   { id := 2, name := "Product 1", price := 20 }], nextId := 3, fault := none }
        { id := "1",
          Body := some (JValue.object [("ID", JValue.number "2" (some 2)),
                                       ("Name", JValue.string "Updated Product"),
                                       ("Price", JValue.number "5" (some 5))]) }
      = (respond 200 (Payload.entity { ID := 2, Name := "Updated Product", Price := 5 }),
          { rows := [{ id := 1, name := "Product 0", price := 10 },
                     { id := 2, name := "Updated Product", price := 5 }], nextId := 3, fault := none }) := by
  decide!

/-! ## Malformed ids -/

/-- C7, as stated, fails: the id 9223372036854775808 passes the route pattern
and does not fit an int; the get handler answers 404, the update handler 400,
and the delete handler writes nothing, which the client sees as 200 with an
empty body. -/
theorem malformed_id_statuses_differ :
    idPattern "9223372036854775808" = true
      ∧ (Atoi "9223372036854775808").2 = some NumError.ErrRange
      ∧ Code (App.getProduct { rows := [], nextId := 1, fault := none }
                { id := "9223372036854775808", Body := none }).1 = 404
      ∧ Code (App.updateProduct { rows := [], nextId := 1, fault := none }
                { id := "9223372036854775808", Body := none }).1 = 400
      ∧ Code (App.deleteProduct { rows := [], nextId := 1, fault := none }
                { id := "9223372036854775808", Body := none }).1 = 200
      ∧ Body (App.deleteProduct { rows := [], nextId := 1, fault := none }
                { id := "9223372036854775808", Body := none }).1 = [] := by
  refine ⟨by decide, by decide, by decide, by decide!, rfl, rfl⟩

/-- C7, amended. When the path id fails integer parsing, the get handler writes
the one body "Invalid product ID" and leaves the database alone; the update
handler answers 400 and the first body it writes is "Invalid product ID"; the
delete handler makes no call on the response writer. -/
theorem malformed_id_answers (db : DB) (r : Request) (hbad : (Atoi r.id).2 ≠ none) :
    Body (App.getProduct db r).1 = [Payload.error "Invalid product ID"]
      ∧ (App.getProduct db r).2 = db
      ∧ Code (App.updateProduct db r).1 = 400
      ∧ (Body (App.updateProduct db r).1).head? = some (Payload.error "Invalid product ID")
      ∧ App.deleteProduct db r = ([], db) := by
  obtain ⟨e, he⟩ := Option.ne_none_iff_exists'.mp hbad
  have hget : App.getProduct db r = (respond 404 (Payload.error "Invalid product ID"), db) := by
    unfold App.getProduct
    cases ha : Atoi r.id with
    | mk v err =>
      rw [ha] at he
      simp only at he
      subst he
      rfl
  have hupd : ∃ rest, (App.updateProduct db r).1
      = respond 400 (Payload.error "Invalid product ID") ++ rest := by
    simp only [App.updateProduct, he]
    split <;> split <;> simp [List.append_assoc]
  obtain ⟨rest, hrest⟩ := hupd
  rw [hget, hrest]
  exact ⟨rfl, rfl, rfl, rfl, rfl⟩

theorem malformed_id_answers_witness :
    Code (App.updateProduct { rows := [], nextId := 1, fault := none }
            { id := "9223372036854775808", Body := none }).1 = 400 :=
  (malformed_id_answers { rows := [], nextId := 1, fault := none }
    { id := "9223372036854775808", Body := none } (by decide)).2.2.1

/-! ## Writes per request -/

theorem respond_counts (statusCode : Nat) (b : Payload) :
    statusWrites (respond statusCode b) = 1 ∧ bodyWrites (respond statusCode b) = 1 :=
  ⟨rfl, rfl⟩

/-- C8, as stated, fails: the delete handler makes no call on the response
writer, and a create whose body is not JSON writes two status codes and two
bodies. -/
theorem handlers_write_counts_differ :
    statusWrites (App.deleteProduct { rows := [], nextId := 1, fault := none }
                    { id := "1", Body := none }).1 = 0
      ∧ bodyWrites (App.deleteProduct { rows := [], nextId := 1, fault := none }
                    { id := "1", Body := none }).1 = 0
      ∧ statusWrites (App.createProduct { rows := [], nextId := 1, fault := none }
                    { id := "", Body := none }).1 = 2
      ∧ bodyWrites (App.createProduct { rows := [], nextId := 1, fault := none }
                    { id := "", Body := none }).1 = 2 := by
  decide!

/-- C8, amended. The list and get handlers write one status code and one body
on every request, database and accessor outcome; the create handler does so
when the body decodes and the insert succeeds; the update handler does so when
the id parses, the body decodes and the update succeeds; the delete handler
makes no call on the response writer. -/
theorem handlers_write_once (db : DB) (r : Request) :
    (statusWrites (App.getProducts db r).1 = 1 ∧ bodyWrites (App.getProducts db r).1 = 1)
      ∧ (statusWrites (App.getProduct db r).1 = 1 ∧ bodyWrites (App.getProduct db r).1 = 1)
      ∧ ((Decode r.Body product.zero).2 = false →
          ((Decode r.Body product.zero).1.createProduct db).1 = none →
          statusWrites (App.createProduct db r).1 = 1 ∧ bodyWrites (App.createProduct db r).1 = 1)
      ∧ ((Atoi r.id).2 = none →
          (Decode r.Body { product.zero with ID := (Atoi r.id).1 }).2 = false →
          ((Decode r.Body { product.zero with ID := (Atoi r.id).1 }).1.updateProduct db).1 = none →
          statusWrites (App.updateProduct db r).1 = 1 ∧ bodyWrites (App.updateProduct db r).1 = 1)
      ∧ App.deleteProduct db r = ([], db) := by
  refine ⟨⟨rfl, rfl⟩, ?_, ?_, ?_, rfl⟩
  · unfold App.getProduct
    split
    · exact respond_counts _ _
    · split <;> exact respond_counts _ _
  · intro hd hc
    simp only [App.createProduct, hd, hc]
    exact respond_counts _ _
  · intro ha hd hu
    simp only [App.updateProduct, ha, hd, hu]
    exact respond_counts _ _

theorem handlers_write_once_witness :
    statusWrites (App.createProduct { rows := [], nextId := 1, fault := none }
        { id := "1",
          Body := some (JValue.object [("name", JValue.string "test product"),
                                       ("price", JValue.number "11.22" (some 11.22))]) }).1 = 1
      ∧ bodyWrites (App.createProduct { rows := [], nextId := 1, fault := none }
        { id := "1",
          Body := some (JValue.object [("name", JValue.string "test product"),
                                       ("price", JValue.number "11.22" (some 11.22))]) }).1 = 1 :=
  (handlers_write_once { rows := [], nextId := 1, fault := none }
    { id := "1",
      Body := some (JValue.object [("name", JValue.string "test product"),
                                   ("price", JValue.number "11.22" (some 11.22))]) }).2.2.1 rfl
    (by decide!)

/-- C10. A POST whose price is a JSON string fails to decode; the create handler
writes the 400 body and goes on: the partly decoded product is inserted, the
table gains a row, and a second body follows the error body. -/
theorem createProduct_decode_failure_still_inserts :
    Decode (some (JValue.object [("name", JValue.string "test product"),
                                 ("price", JValue.string "11.22")])) product.zero
        = ({ ID := 0, Name := "test product", Price := 0 }, true)
      ∧ App.createProduct { rows := [], nextId := 1, fault := none }
          { id := "",
            Body := some (JValue.object [("name", JValue.string "test product"),
                                         ("price", JValue.string "11.22")]) }
        = (respond 400 (Payload.error "Invalid Payload")
            ++ respond 201 (Payload.entity { ID := 1, Name := "test product", Price := 0 }),
            { rows := [{ id := 1, name := "test product", price := 0 }], nextId := 2, fault := none })
      ∧ Body (App.createProduct { rows := [], nextId := 1, fault := none }
          { id := "",
            Body := some (JValue.object [("name", JValue.string "test product"),
                                         ("price", JValue.string "11.22")]) }).1
        = [Payload.error "Invalid Payload",
           Payload.entity { ID := 1, Name := "test product", Price := 0 }] := by
  decide!

end DatabaseWriter
